import Mathlib

/-
Verification development for the Weather-Forecast-Web-Application repository.

Shallow embedding of `src/lib/weather.ts` and `src/lib/cities.ts`:

- JavaScript numbers are modelled as rationals (`ℚ`); Unix timestamps as
  `Nat` (input sample times) or `Int` (derived times, which may go negative
  under subtraction in the mock data).
- The JavaScript falsy-number fallback `a || b` is modelled by `jsOr`
  (`0` is the only falsy rational in scope; `NaN` does not arise in the
  embedding).
- `fetch` and its possible failures (network rejection or a non-ok HTTP
  status, both of which land in the surrounding `catch`) are modelled by an
  explicit upstream outcome of type `Except Unit _` passed as an argument.
- `Math.random()` is modelled by an explicit stream `rnd : Nat → ℚ` of
  draws; successive calls in the source are mapped to distinct indices of
  the stream.  `console.error` / `console.warn` diagnostics are modelled as
  a returned list of log strings.
- `Date.prototype.toISOString().split("T")[0]` applied to `dt * 1000`
  determines the UTC calendar day; two timestamps yield the same day string
  exactly when `dt / 86400` agree (the JS Date is proleptic Gregorian with
  no leap seconds), so the grouping key is modelled as `dt / 86400 : Nat`.
  Conversely `new Date("YYYY-MM-DD").getTime() / 1000` is UTC midnight of
  that day, i.e. `day * 86400`.
-/

/-- Modelled JS falsy fallback `a || b` on numbers: `0` is falsy. -/
def jsOr (a b : ℚ) : ℚ := if a = 0 then b else a

/-- Modelled JS falsy fallback `a || b` on integer timestamps. -/
def jsOrInt (a b : Int) : Int := if a = 0 then b else a

/-- Modelled JS falsy fallback `a || b` on strings: `""` is falsy. -/
def jsOrStr (a b : String) : String := if a = "" then b else a

/-- Modelled `Math.floor` on a rational, returned as a rational. -/
def jsFloorQ (q : ℚ) : ℚ := ((Int.floor q : Int) : ℚ)

/-- Modelled JS array indexing `xs[Math.floor(q * xs.length)]` used to pick a
random element of a literal array (`""` stands for the unreachable
`undefined`). -/
def jsPick (xs : List String) (q : ℚ) : String :=
  xs.getD (Int.toNat (Int.floor (q * (xs.length : ℚ)))) ""

/-- Modelled `Number.parseInt` restricted to the digit-prefix strings this
code feeds it; `none` stands for `NaN`. -/
def jsParseInt (s : String) : Option Nat :=
  let ds := s.takeWhile Char.isDigit
  if ds = "" then none else ds.toNat?

/-- One entry of a weather condition array (shared by current weather and
forecast records in `weather.ts`). -/
structure WxCond where
  id : Int
  main : String
  description : String
  icon : String
deriving DecidableEq

/-- The `main` block of a 3-hour forecast sample, with the fields
`processForecastData` reads. -/
structure ItemMain where
  temp : ℚ
  feels_like : ℚ
  pressure : ℚ
  humidity : ℚ
deriving DecidableEq

/-- The `wind` block of a 3-hour forecast sample. -/
structure ItemWind where
  speed : ℚ
  deg : ℚ
  gust : Option ℚ
deriving DecidableEq

/-- The `clouds` block of a 3-hour forecast sample. -/
structure ItemClouds where
  all : ℚ
deriving DecidableEq

/-- The `sys` block of a 3-hour forecast sample (`sunrise` / `sunset` as
read through `dayForecast.sys?.sunrise`). -/
structure ItemSys where
  sunrise : Int
  sunset : Int
deriving DecidableEq

/-- A precipitation block carrying a `"3h"` field (written `h3` since Lean
field names cannot start with a digit). -/
structure Precip3h where
  h3 : Option ℚ
deriving DecidableEq

/-- One 3-hour forecast sample from the OpenWeatherMap `forecast` endpoint,
as consumed (untyped, `any[]`) by `processForecastData`. -/
structure ForecastItem where
  dt : Nat
  main : ItemMain
  weather : List WxCond
  wind : Option ItemWind
  clouds : Option ItemClouds
  sys : Option ItemSys
  pop : Option ℚ
  rain : Option Precip3h
  snow : Option Precip3h
deriving DecidableEq

/-- The `temp` block of the produced per-day `ForecastData`. -/
structure TempBlock where
  day : ℚ
  min : ℚ
  max : ℚ
  night : ℚ
  eve : ℚ
  morn : ℚ
deriving DecidableEq

/-- The `feels_like` block of the produced per-day `ForecastData`. -/
structure FeelsBlock where
  day : ℚ
  night : ℚ
  eve : ℚ
  morn : ℚ
deriving DecidableEq

/-- The per-day forecast record produced by `processForecastData`
(interface `ForecastData` in `weather.ts`; `rain` / `snow` are optional in
the interface and absent from the mock entries, hence `Option ℚ`). -/
structure ForecastData where
  dt : Int
  sunrise : Int
  sunset : Int
  temp : TempBlock
  feels_like : FeelsBlock
  pressure : ℚ
  humidity : ℚ
  weather : List WxCond
  speed : ℚ
  deg : ℚ
  gust : ℚ
  clouds : ℚ
  pop : ℚ
  rain : Option ℚ
  snow : Option ℚ
deriving DecidableEq

/-- UTC calendar day of a sample, i.e. the grouping key
`new Date(item.dt * 1000).toISOString().split("T")[0]` (see the header
comment for the day-number identification). -/
def itemDay (x : ForecastItem) : Nat := x.dt / 86400

/-- One step of the `forecastList.forEach` loop filling the `dailyData`
record: append the item to its day's bucket, creating the bucket on first
sight of the day.  JS records iterate non-numeric string keys in first
insertion order, which the association list preserves. -/
def insertItem (acc : List (Nat × List ForecastItem)) (x : ForecastItem) :
    List (Nat × List ForecastItem) :=
  if acc.any (fun q => q.1 == itemDay x) then
    acc.map (fun q => if q.1 = itemDay x then (q.1, q.2 ++ [x]) else q)
  else
    acc ++ [(itemDay x, [x])]

/-- The `dailyData` record of `processForecastData`: samples grouped by UTC
calendar day, in first-appearance order of the days. -/
def groupByDay (l : List ForecastItem) : List (Nat × List ForecastItem) :=
  l.foldl insertItem []

/-- The value `item.pop || 0` used in the precipitation average. -/
def popVal (x : ForecastItem) : ℚ := x.pop.getD 0

/-- The value `item.rain?.["3h"] || 0`. -/
def rain3hVal (x : ForecastItem) : ℚ :=
  match x.rain with
  | none => 0
  | some p => p.h3.getD 0

/-- The value `item.snow?.["3h"] || 0`. -/
def snow3hVal (x : ForecastItem) : ℚ :=
  match x.snow with
  | none => 0
  | some p => p.h3.getD 0

/-- Minimum of a list of rationals: `Math.min(...temps)` for the nonempty
temperature lists this code produces (the `[]` case, `Infinity` in JS, is
unreachable because every day bucket holds at least one sample). -/
def listMinQ : List ℚ → ℚ
  | [] => 0
  | t :: ts => ts.foldl min t

/-- Maximum of a list of rationals: `Math.max(...temps)`, nonempty in all
reachable calls. -/
def listMaxQ : List ℚ → ℚ
  | [] => 0
  | t :: ts => ts.foldl max t

/-- Placeholder sample standing for the JS `undefined` produced by an
out-of-range index; never hit on the nonempty buckets `groupByDay`
produces. -/
def dummyItem : ForecastItem :=
  { dt := 0
  , main := { temp := 0, feels_like := 0, pressure := 0, humidity := 0 }
  , weather := []
  , wind := none
  , clouds := none
  , sys := none
  , pop := none
  , rain := none
  , snow := none }

/-- Body of the `Object.entries(dailyData).map` callback of
`processForecastData`: aggregate one day's bucket `items` (key `d` is the
day number) into a `ForecastData` record. -/
def processGroup (d : Nat) (items : List ForecastItem) : ForecastData :=
  let temps := items.map (fun it => it.main.temp)
  let minTemp := listMinQ temps
  let maxTemp := listMaxQ temps
  let midIndex := items.length / 2
  let dayForecast := items.getD midIndex dummyItem
  let pop := (items.foldl (fun s it => s + popVal it) 0) / (items.length : ℚ)
  { dt := (d : Int) * 86400
  , sunrise :=
      match dayForecast.sys with
      | some s => jsOrInt s.sunrise (dayForecast.dt : Int)
      | none => (dayForecast.dt : Int)
  , sunset :=
      match dayForecast.sys with
      | some s => jsOrInt s.sunset ((dayForecast.dt : Int) + 43200)
      | none => (dayForecast.dt : Int) + 43200
  , temp :=
      { day := dayForecast.main.temp
      , min := minTemp
      , max := maxTemp
      , night := jsOr (items.getD (items.length - 1) dummyItem).main.temp
          dayForecast.main.temp
      , eve := jsOr
          (items.getD (min (items.length - 1) (midIndex + 2)) dummyItem).main.temp
          dayForecast.main.temp
      , morn := jsOr (items.getD 0 dummyItem).main.temp dayForecast.main.temp }
  , feels_like :=
      { day := dayForecast.main.feels_like
      , night := jsOr (items.getD (items.length - 1) dummyItem).main.feels_like
          dayForecast.main.feels_like
      , eve := jsOr
          (items.getD (min (items.length - 1) (midIndex + 2)) dummyItem).main.feels_like
          dayForecast.main.feels_like
      , morn := jsOr (items.getD 0 dummyItem).main.feels_like
          dayForecast.main.feels_like }
  , pressure := dayForecast.main.pressure
  , humidity := dayForecast.main.humidity
  , weather := dayForecast.weather
  , speed :=
      match dayForecast.wind with
      | some w => jsOr w.speed 0
      | none => 0
  , deg :=
      match dayForecast.wind with
      | some w => jsOr w.deg 0
      | none => 0
  , gust :=
      match dayForecast.wind with
      | some w => jsOr (w.gust.getD 0) 0
      | none => 0
  , clouds :=
      match dayForecast.clouds with
      | some c => jsOr c.all 0
      | none => 0
  , pop := pop
  , rain := some (rain3hVal dayForecast)
  , snow := some (snow3hVal dayForecast) }

/-- The helper `processForecastData(forecastList, units)` of `weather.ts`
(the `units` argument is unused by the body and omitted): bucket the flat
3-hour samples by UTC day and aggregate each bucket. -/
def processForecastData (forecastList : List ForecastItem) : List ForecastData :=
  (groupByDay forecastList).map (fun q => processGroup q.1 q.2)

/-- Ambient state a browser call could in principle observe: wall-clock time
and the `Math.random` stream. -/
structure Ambient where
  now : Int
  rnd : Nat → ℚ

/-- A run of `processForecastData` in an ambient environment.  The source
body references neither `Date.now` nor `Math.random` nor any other ambient
state, so the embedding ignores the environment. -/
def runProcessForecastData (env : Ambient) (l : List ForecastItem) :
    List ForecastData :=
  processForecastData l

/-- Placeholder per-day record used as the `List.getD` default when stating
facts about in-range positions of `processForecastData`'s output. -/
def dummyForecastData : ForecastData := processGroup 0 []

/-- Inline weather summary attached to a `City` row (the `weather?` field of
interface `City` in `cities.ts`; `Math.round` produces integers). -/
structure CityWeather where
  temp : Int
  high : Int
  low : Int
  description : String
  icon : String
deriving DecidableEq

/-- A display-friendly city record (interface `City` in `cities.ts`). -/
structure City where
  id : String
  name : String
  country : String
  latitude : ℚ
  longitude : ℚ
  population : ℚ
  timezone : String
  weather : Option CityWeather
deriving DecidableEq

/-- Placeholder city used as a `List.getD` default in statements about
in-range positions. -/
def dummyCity : City :=
  { id := "", name := "", country := "", latitude := 0, longitude := 0
  , population := 0, timezone := "", weather := none }

/-- One raw record of the OpenDataSoft response, with the fields the
transforms read. -/
structure CityRecord where
  recordid : String
  name : String
  cou_name_en : String
  coordinates : ℚ × ℚ
  population : Option ℚ
  timezone : Option String
deriving DecidableEq

/-- The OpenDataSoft search response consumed by `fetchCities`. -/
structure CitiesApiResponse where
  nhits : Int
  records : List CityRecord
deriving DecidableEq

/-- The OpenDataSoft search response consumed by `getCityById` (only
`records` is read). -/
structure CityQueryResponse where
  records : List CityRecord
deriving DecidableEq

/-- Result shape of `fetchCities` (interface `FetchCitiesResponse`). -/
structure FetchCitiesResponse where
  cities : List City
  hasMore : Bool
  total : Int
deriving DecidableEq

/-- Parameters of `fetchCities` after destructuring with defaults applied;
`filters` models the `...filters` rest object as key/value pairs, a value
being truthy when nonempty. -/
structure FetchCitiesParams where
  page : Int
  limit : Int
  search : String
  sortField : String
  sortDirection : String
  filters : List (String × String)
deriving DecidableEq

/-- The `queryParams` assembled by `fetchCities` before the fetch, in
append order: `rows`, `start`, optional `q`, `sort`, `refine.*` filters,
`format`. -/
def buildCityQueryParams (p : FetchCitiesParams) : List (String × String) :=
  ("rows", toString p.limit) ::
  ("start", toString ((p.page - 1) * p.limit)) ::
  ((if p.search = "" then [] else [(("q" : String), p.search)]) ++
    (("sort", (if p.sortDirection = "desc" then "-" else "") ++ p.sortField) ::
      (p.filters.filterMap (fun kv =>
        if kv.2 = "" then none else some ("refine." ++ kv.1, kv.2)) ++
        [(("format" : String), ("json" : String))])))

/-- Lookup of a query parameter's value in an assembled parameter list. -/
def getParam (ps : List (String × String)) (k : String) : Option String :=
  (ps.find? (fun kv => kv.1 == k)).map Prod.snd

/-- The record-to-`City` reshaping shared by `fetchCities` and
`getCityById` (`population || 0` and `timezone || "Unknown"` are the JS
falsy fallbacks). -/
def cityOfRecord (r : CityRecord) : City :=
  { id := r.recordid
  , name := r.name
  , country := r.cou_name_en
  , latitude := r.coordinates.1
  , longitude := r.coordinates.2
  , population := jsOr (r.population.getD 0) 0
  , timezone :=
      match r.timezone with
      | none => "Unknown"
      | some t => jsOrStr t ("Unknown")
  , weather := none }

/-- The `i`-th mock city fabricated by `fetchCities` when the upstream
fetch fails; draw `5*i + k` stands for the `k`-th `Math.random()` call of
the iteration. -/
def mockCityAt (offset : Int) (rnd : Nat → ℚ) (i : Nat) : City :=
  { id := "mock-" ++ toString ((i : Int) + offset)
  , name := "City " ++ toString ((i : Int) + offset + 1)
  , country := jsPick [("USA" : String), "Canada", "UK", "Germany", "France"]
      (rnd (5 * i))
  , latitude := rnd (5 * i + 1) * 180 - 90
  , longitude := rnd (5 * i + 2) * 360 - 180
  , population := jsFloorQ (rnd (5 * i + 3) * 10000000)
  , timezone := jsPick [("UTC" : String), "UTC+1", "UTC-5", "UTC+8"]
      (rnd (5 * i + 4))
  , weather := none }

/-- The `Array.from({ length: limit })` mock city list of `fetchCities`'s
catch branch. -/
def mockCitiesList (count : Nat) (offset : Int) (rnd : Nat → ℚ) : List City :=
  (List.range count).map (mockCityAt offset rnd)

/-- `fetchCities` of `cities.ts`: the upstream outcome (fetch rejection or
non-ok status both reach the catch) is the `up` argument; returns the
response together with the emitted diagnostics. -/
def fetchCities (p : FetchCitiesParams) (up : Except Unit CitiesApiResponse)
    (rnd : Nat → ℚ) : FetchCitiesResponse × List String :=
  let offset : Int := (p.page - 1) * p.limit
  match up with
  | Except.ok data =>
      let cities := data.records.map cityOfRecord
      ({ cities := cities
       , hasMore := decide (offset + (cities.length : Int) < data.nhits)
       , total := data.nhits }, [])
  | Except.error _ =>
      ({ cities := mockCitiesList p.limit.toNat offset rnd
       , hasMore := decide (p.page < 5)
       , total := 100 }, ["Error fetching cities:"])

/-- Character-list test that the first list starts the second, used to
model `String.prototype.startsWith` structurally. -/
def charListStarts : List Char → List Char → Bool
  | [], _ => true
  | _ :: _, [] => false
  | a :: as, b :: bs => a == b && charListStarts as bs

/-- Modelled `s.startsWith(pre)` on the underlying character lists. -/
def jsStartsWith (s pre : String) : Bool := charListStarts pre.data s.data

/-- The `id.replace("mock-", "")` of `getCityById`'s catch branch; JS
replaces the first occurrence, which for the guarding `startsWith("mock-")`
ids is the 5-character prefix. -/
def jsReplaceMock (s : String) : String :=
  if jsStartsWith s ("mock-") then s.drop 5 else s

/-- The mock city fabricated by `getCityById` for a `mock-` id after a
failed fetch (`"NaN"` renders `City ${NaN + 1}` when the suffix is not a
number). -/
def mockCityForId (id : String) (rnd : Nat → ℚ) : City :=
  let idNumber := jsParseInt (jsReplaceMock id)
  { id := id
  , name := "City " ++
      (match idNumber with
       | some n => toString (n + 1)
       | none => "NaN")
  , country := jsPick [("USA" : String), "Canada", "UK", "Germany", "France"]
      (rnd 0)
  , latitude := rnd 1 * 180 - 90
  , longitude := rnd 2 * 360 - 180
  , population := jsFloorQ (rnd 3 * 10000000)
  , timezone := jsPick [("UTC" : String), "UTC+1", "UTC-5", "UTC+8"] (rnd 4)
  , weather := none }

/-- `getCityById` of `cities.ts`: returns the looked-up city (or `null`,
modelled `none`) together with the emitted diagnostics.  The function never
throws: the embedding is total and every branch returns a value. -/
def getCityById (id : String) (up : Except Unit CityQueryResponse)
    (rnd : Nat → ℚ) : Option City × List String :=
  match up with
  | Except.ok data =>
      match data.records with
      | [] => (none, [])
      | record :: _ => (some (cityOfRecord record), [])
  | Except.error _ =>
      if jsStartsWith id ("mock-") then
        (some (mockCityForId id rnd), ["Error fetching city by ID:"])
      else
        (none, ["Error fetching city by ID:"])

/-- `updateCityWeather` of `cities.ts` given already-parsed numeric and
descriptive weather values. -/
def updateCityWeather (city : City) (w : CityWeather) : City :=
  { city with weather := some w }

/-- The `main` block of an OpenWeatherMap current-weather response as read
by `fetchWeatherForCities`. -/
structure WxApiMain where
  temp : ℚ
  temp_min : ℚ
  temp_max : ℚ
deriving DecidableEq

/-- The parsed per-city weather response read by `fetchWeatherForCities`. -/
structure WxApiResponse where
  main : WxApiMain
  weather : List WxCond
deriving DecidableEq

/-- The weather summary `fetchWeatherForCities` builds from a parsed
response whose `weather` array has first element `w0`. -/
def cityWeatherOf (w : WxApiResponse) (w0 : WxCond) : CityWeather :=
  { temp := round w.main.temp
  , high := round w.main.temp_max
  , low := round w.main.temp_min
  , description := w0.description
  , icon := w0.icon }

/-- The per-city callback of the `Promise.all` in `fetchWeatherForCities`:
a failed fetch, a non-ok status, or an empty `weather` array (whose
`weather[0].description` access throws inside the same `try`) each yield
the city unchanged plus a diagnostic. -/
def fetchOneCity (up : City → Except Unit WxApiResponse) (city : City) :
    City × List String :=
  match up city with
  | Except.ok w =>
      match w.weather with
      | w0 :: _ => (updateCityWeather city (cityWeatherOf w w0), [])
      | [] => (city, ["Error fetching weather for " ++ city.name ++ ":"])
  | Except.error _ => (city, ["Error fetching weather for " ++ city.name ++ ":"])

/-- The random placeholder weather that `fetchWeatherForCities` attaches to the
`i`-th city when no API key is configured; draw `5*i + k` stands for the
`k`-th `Math.random()` call of the iteration. -/
def mockCityWx (rnd : Nat → ℚ) (i : Nat) : CityWeather :=
  { temp := round (15 + rnd (5 * i) * 10)
  , high := round (20 + rnd (5 * i + 1) * 10)
  , low := round (10 + rnd (5 * i + 2) * 5)
  , description := jsPick [("Clear" : String), "Cloudy", "Rainy"] (rnd (5 * i + 3))
  , icon := jsPick [("01d" : String), "02d", "10d"] (rnd (5 * i + 4)) }

/-- The no-API-key branch of `fetchWeatherForCities`: every city gets a
fresh random placeholder, drawn sequentially. -/
def mockWeatherCities (rnd : Nat → ℚ) : Nat → List City → List City
  | _, [] => []
  | i, c :: cs =>
      { c with weather := some (mockCityWx rnd i) } :: mockWeatherCities rnd (i + 1) cs

/-- `fetchWeatherForCities` (identical copies live in `weather.ts` and
`cities.ts`): `hasKey` is whether a usable API key is configured, `up` the
per-city upstream outcome.  Returns the updated cities and the emitted
diagnostics. -/
def fetchWeatherForCities (hasKey : Bool) (cities : List City)
    (up : City → Except Unit WxApiResponse) (rnd : Nat → ℚ) :
    List City × List String :=
  if hasKey then
    ((cities.map (fetchOneCity up)).map Prod.fst,
      ((cities.map (fetchOneCity up)).map Prod.snd).flatten)
  else
    (mockWeatherCities rnd 0 cities, [])

/-- The `coord` block of a current-weather record. -/
structure Coord where
  lon : ℚ
  lat : ℚ
deriving DecidableEq

/-- The `main` block of a current-weather record (interface
`WeatherData`). -/
structure CurrentMain where
  temp : ℚ
  feels_like : ℚ
  temp_min : ℚ
  temp_max : ℚ
  pressure : ℚ
  humidity : ℚ
deriving DecidableEq

/-- The `wind` block of a current-weather record. -/
structure CurrentWind where
  speed : ℚ
  deg : ℚ
  gust : Option ℚ
deriving DecidableEq

/-- The `clouds` block of a current-weather record. -/
structure CurrentClouds where
  all : ℚ
deriving DecidableEq

/-- The `sys` block of a current-weather record. -/
structure CurrentSys where
  type : Int
  id : Int
  country : String
  sunrise : Int
  sunset : Int
deriving DecidableEq

/-- A precipitation block with optional `"1h"` / `"3h"` fields (written
`h1` / `h3`). -/
structure PrecipHours where
  h1 : Option ℚ
  h3 : Option ℚ
deriving DecidableEq

/-- The current-weather record (interface `WeatherData` of `weather.ts`). -/
structure WeatherData where
  coord : Coord
  weather : List WxCond
  base : String
  main : CurrentMain
  visibility : ℚ
  wind : CurrentWind
  clouds : CurrentClouds
  rain : Option PrecipHours
  snow : Option PrecipHours
  dt : Int
  sys : CurrentSys
  timezone : Int
  id : Int
  name : String
  cod : Int
deriving DecidableEq

/-- The combined result of `fetchWeather` (interface `WeatherResponse`). -/
structure WeatherResponse where
  current : WeatherData
  forecast : List ForecastData
deriving DecidableEq

/-- `getMockWeatherData` of `weather.ts`; `now` models
`Math.floor(Date.now() / 1000)` and draw `10*i + k` the `k`-th
`Math.random()` call while building forecast entry `i`. -/
def getMockWeatherData (units : String) (now : Int) (rnd : Nat → ℚ) :
    WeatherResponse :=
  let tempUnit : ℚ := if units = "metric" then 20 else 68
  let windUnit : ℚ := if units = "metric" then 5 else 11
  let current : WeatherData :=
    { coord := { lon := -1257 / 10000, lat := 515085 / 10000 }
    , weather := [{ id := 800, main := "Clear", description := "clear sky"
                  , icon := "01d" }]
    , base := "stations"
    , main := { temp := tempUnit, feels_like := tempUnit - 2
              , temp_min := tempUnit - 3, temp_max := tempUnit + 3
              , pressure := 1013, humidity := 65 }
    , visibility := 10000
    , wind := { speed := windUnit, deg := 240, gust := none }
    , clouds := { all := 0 }
    , rain := none
    , snow := none
    , dt := now
    , sys := { type := 2, id := 2019646, country := "GB"
             , sunrise := now - 3600, sunset := now + 3600 }
    , timezone := 3600
    , id := 2643743
    , name := "London"
    , cod := 200 }
  let forecast : List ForecastData := (List.range 7).map (fun (i : Nat) =>
    let dayOffset : Int := (i : Int) * 86400
    { dt := now + dayOffset
    , sunrise := now - 3600 + dayOffset
    , sunset := now + 3600 + dayOffset
    , temp := { day := tempUnit + jsFloorQ (rnd (10 * i) * 5)
              , min := tempUnit - jsFloorQ (rnd (10 * i + 1) * 5)
              , max := tempUnit + jsFloorQ (rnd (10 * i + 2) * 8)
              , night := tempUnit - jsFloorQ (rnd (10 * i + 3) * 3)
              , eve := tempUnit
              , morn := tempUnit - 2 }
    , feels_like := { day := tempUnit - 1, night := tempUnit - 3
                    , eve := tempUnit - 1, morn := tempUnit - 4 }
    , pressure := 1013
    , humidity := 65
    , weather := [{ id := 800 + Int.floor (rnd (10 * i + 4) * 3)
                  , main := jsPick [("Clear" : String), "Clouds", "Rain"]
                      (rnd (10 * i + 5))
                  , description := jsPick
                      [("clear sky" : String), "few clouds", "light rain"]
                      (rnd (10 * i + 6))
                  , icon := jsPick [("01d" : String), "02d", "10d"]
                      (rnd (10 * i + 7)) }]
    , speed := windUnit
    , deg := 240
    , gust := windUnit + 2
    , clouds := jsFloorQ (rnd (10 * i + 8) * 100)
    , pop := rnd (10 * i + 9)
    , rain := none
    , snow := none })
  { current := current, forecast := forecast }

/-- `fetchWeather` of `weather.ts`: `hasKey` is whether a usable API key is
configured; `up` carries the parsed current weather and raw forecast list
when both fetches succeed, and an error when either fails (a non-ok status
throws into the same catch). -/
def fetchWeather (hasKey : Bool) (units : String)
    (up : Except Unit (WeatherData × List ForecastItem)) (now : Int)
    (rnd : Nat → ℚ) : WeatherResponse × List String :=
  if hasKey then
    match up with
    | Except.ok res =>
        ({ current := res.1, forecast := processForecastData res.2 }, [])
    | Except.error _ =>
        (getMockWeatherData units now rnd, ["Error fetching weather data:"])
  else
    (getMockWeatherData units now rnd,
      ["No OpenWeatherMap API key provided. Using mock data."])

/-- Fields of a city other than `weather` agree (the frame of
`fetchWeatherForCities`). -/
def SameCityIdentity (a b : City) : Prop :=
  a.id = b.id ∧ a.name = b.name ∧ a.country = b.country ∧
  a.latitude = b.latitude ∧ a.longitude = b.longitude ∧
  a.population = b.population ∧ a.timezone = b.timezone

/-- A 3-hour sample on day 0 used to instantiate universally quantified
theorems. -/
def sampleA : ForecastItem :=
  { dt := 3600
  , main := { temp := 10, feels_like := 9, pressure := 1012, humidity := 60 }
  , weather := [{ id := 800, main := "Clear", description := "clear sky"
                , icon := "01d" }]
  , wind := some { speed := 3, deg := 120, gust := none }
  , clouds := some { all := 10 }
  , sys := none
  , pop := some (1 / 2)
  , rain := none
  , snow := none }

/-- A second sample on day 0. -/
def sampleC : ForecastItem :=
  { dummyItem with
    dt := 7200,
    main := { temp := 12, feels_like := 11, pressure := 1011, humidity := 55 },
    pop := some (1 / 4) }

/-- A sample on day 1. -/
def sampleB : ForecastItem :=
  { dummyItem with
    dt := 90000,
    main := { temp := 20, feels_like := 19, pressure := 1009, humidity := 40 } }

/-- A day-0 sample whose temperature is exactly `0`, exercising the JS
falsy fallback in the snapshot selection. -/
def cexItemA : ForecastItem :=
  { dummyItem with
    main := { temp := 0, feels_like := -1, pressure := 1000, humidity := 50 } }

/-- A second day-0 sample with a nonzero temperature. -/
def cexItemB : ForecastItem :=
  { dummyItem with
    dt := 10800,
    main := { temp := 5, feels_like := 4, pressure := 1001, humidity := 52 } }

/-- Invariant tying the grouping fold's accumulator to the already-processed
prefix `p`: keys are exactly the distinct days of `p` (without duplicates)
and each bucket holds exactly the prefix's samples of its day, in order. -/
def GroupsInv (p : List ForecastItem) (acc : List (Nat × List ForecastItem)) : Prop :=
  ((acc.map Prod.fst).Nodup) ∧
  (∀ d, d ∈ acc.map Prod.fst ↔ ∃ x ∈ p, itemDay x = d) ∧
  (∀ q ∈ acc, q.2 = p.filter (fun x => itemDay x == q.1))

theorem insertItem_inv (p : List ForecastItem) (acc : List (Nat × List ForecastItem))
    (x : ForecastItem) (h : GroupsInv p acc) :
    GroupsInv (p ++ [x]) (insertItem acc x) := by
  obtain ⟨hnd, hiff, hgrp⟩ := h
  unfold insertItem
  rcases hb : acc.any (fun q => q.1 == itemDay x) with hb' | hb'
  · -- the day is new: a fresh singleton bucket is appended
    have hmem : itemDay x ∉ acc.map Prod.fst := by
      intro hm
      obtain ⟨q, hq, hqd⟩ := List.mem_map.mp hm
      have : acc.any (fun q => q.1 == itemDay x) = true :=
        List.any_eq_true.mpr ⟨q, hq, by simp [hqd]⟩
      rw [hb] at this
      cases this
    rw [if_neg (by simp)]
    refine ⟨?_, ?_, ?_⟩
    · rw [List.map_append]
      simp only [List.map_cons, List.map_nil]
      rw [List.nodup_append]
      exact ⟨hnd, List.nodup_singleton _, by simpa [List.disjoint_singleton] using hmem⟩
    · intro d
      rw [List.map_append]
      simp only [List.map_cons, List.map_nil]
      rw [List.mem_append, List.mem_singleton]
      constructor
      · rintro (hd | rfl)
        · obtain ⟨y, hy, hyd⟩ := (hiff d).mp hd
          exact ⟨y, List.mem_append_left _ hy, hyd⟩
        · exact ⟨x, List.mem_append_right _ (List.mem_singleton_self x), rfl⟩
      · rintro ⟨y, hy, hyd⟩
        rcases List.mem_append.mp hy with hy | hy
        · exact Or.inl ((hiff d).mpr ⟨y, hy, hyd⟩)
        · have hyx : y = x := by simpa using hy
          subst hyx
          exact Or.inr hyd.symm
    · intro q hq
      rcases List.mem_append.mp hq with hq | hq
      · have hg := hgrp q hq
        have hne : itemDay x ≠ q.1 := by
          intro he
          exact hmem (he ▸ List.mem_map.mpr ⟨q, hq, rfl⟩)
        rw [List.filter_append]
        have hx : [x].filter (fun y => itemDay y == q.1) = [] := by simp [hne]
        rw [hx, List.append_nil]
        exact hg
      · have hqx : q = (itemDay x, [x]) := by simpa using hq
        subst hqx
        rw [List.filter_append]
        have h1 : p.filter (fun y => itemDay y == itemDay x) = [] := by
          rw [List.filter_eq_nil_iff]
          intro y hy
          simp only [beq_iff_eq]
          intro hyd
          exact hmem ((hiff (itemDay x)).mpr ⟨y, hy, hyd⟩)
        have h2 : [x].filter (fun y => itemDay y == itemDay x) = [x] := by simp
        rw [h1, h2]
        simp
  · -- the day already has a bucket: the item is appended to it
    have hmem : itemDay x ∈ acc.map Prod.fst := by
      obtain ⟨q, hq, hqd⟩ := List.any_eq_true.mp hb
      exact List.mem_map.mpr ⟨q, hq, by simpa using hqd⟩
    rw [if_pos (by simp)]
    have hfst : ∀ q : Nat × List ForecastItem,
        (if q.1 = itemDay x then (q.1, q.2 ++ [x]) else q).1 = q.1 := by
      intro q
      split <;> rfl
    have hkeys :
        ((acc.map fun q => if q.1 = itemDay x then (q.1, q.2 ++ [x]) else q).map Prod.fst)
          = acc.map Prod.fst := by
      rw [List.map_map]
      exact List.map_congr_left fun q _ => hfst q
    refine ⟨?_, ?_, ?_⟩
    · rw [hkeys]
      exact hnd
    · intro d
      rw [hkeys]
      constructor
      · intro hd
        obtain ⟨y, hy, hyd⟩ := (hiff d).mp hd
        exact ⟨y, List.mem_append_left _ hy, hyd⟩
      · rintro ⟨y, hy, hyd⟩
        rcases List.mem_append.mp hy with hy | hy
        · exact (hiff d).mpr ⟨y, hy, hyd⟩
        · have hyx : y = x := by simpa using hy
          subst hyx
          rw [← hyd]
          exact hmem
    · intro q hq
      obtain ⟨q0, hq0, hq0eq⟩ := List.mem_map.mp hq
      have hg := hgrp q0 hq0
      subst hq0eq
      rw [List.filter_append]
      by_cases hd : q0.1 = itemDay x
      · rw [if_pos hd]
        have hx : [x].filter (fun y => itemDay y == q0.1) = [x] := by simp [hd]
        rw [hx]
        rw [hg]
      · rw [if_neg hd]
        have hne : itemDay x ≠ q0.1 := fun he => hd he.symm
        have hx : [x].filter (fun y => itemDay y == q0.1) = [] := by simp [hne]
        rw [hx, List.append_nil]
        exact hg

theorem groupsInv_foldl (l : List ForecastItem) :
    ∀ (p : List ForecastItem) (acc : List (Nat × List ForecastItem)),
      GroupsInv p acc → GroupsInv (p ++ l) (l.foldl insertItem acc) := by
  induction l with
  | nil =>
    intro p acc h
    simpa using h
  | cons x xs ih =>
    intro p acc h
    have h2 := insertItem_inv p acc x h
    have h3 := ih (p ++ [x]) (insertItem acc x) h2
    simpa [List.append_assoc] using h3

theorem groupByDay_inv (l : List ForecastItem) : GroupsInv l (groupByDay l) := by
  have h0 : GroupsInv [] [] := by
    refine ⟨by simp, by simp, by simp⟩
  simpa using groupsInv_foldl l [] [] h0

theorem foldl_min_le_init (ts : List ℚ) : ∀ a : ℚ, ts.foldl min a ≤ a := by
  induction ts with
  | nil => intro a; simp
  | cons t ts ih => intro a; exact le_trans (ih (min a t)) (min_le_left a t)

theorem foldl_min_le_mem (ts : List ℚ) : ∀ a x : ℚ, x ∈ ts → ts.foldl min a ≤ x := by
  induction ts with
  | nil =>
    intro a x hx
    cases hx
  | cons t ts ih =>
    intro a x hx
    rcases List.mem_cons.mp hx with rfl | hx
    · exact le_trans (foldl_min_le_init ts (min a x)) (min_le_right a x)
    · exact ih (min a t) x hx

theorem foldl_min_eq_or_mem (ts : List ℚ) :
    ∀ a : ℚ, ts.foldl min a = a ∨ ts.foldl min a ∈ ts := by
  induction ts with
  | nil => intro a; exact Or.inl rfl
  | cons t ts ih =>
    intro a
    rcases ih (min a t) with h | h
    · rcases min_choice a t with hm | hm
      · exact Or.inl (by rw [List.foldl_cons, h, hm])
      · exact Or.inr (by rw [List.foldl_cons, h, hm]; exact List.mem_cons_self t ts)
    · exact Or.inr (List.mem_cons_of_mem t h)

theorem foldl_max_init_le (ts : List ℚ) : ∀ a : ℚ, a ≤ ts.foldl max a := by
  induction ts with
  | nil => intro a; simp
  | cons t ts ih => intro a; exact le_trans (le_max_left a t) (ih (max a t))

theorem foldl_max_mem_le (ts : List ℚ) : ∀ a x : ℚ, x ∈ ts → x ≤ ts.foldl max a := by
  induction ts with
  | nil =>
    intro a x hx
    cases hx
  | cons t ts ih =>
    intro a x hx
    rcases List.mem_cons.mp hx with rfl | hx
    · exact le_trans (le_max_right a x) (foldl_max_init_le ts (max a x))
    · exact ih (max a t) x hx

theorem foldl_max_eq_or_mem (ts : List ℚ) :
    ∀ a : ℚ, ts.foldl max a = a ∨ ts.foldl max a ∈ ts := by
  induction ts with
  | nil => intro a; exact Or.inl rfl
  | cons t ts ih =>
    intro a
    rcases ih (max a t) with h | h
    · rcases max_choice a t with hm | hm
      · exact Or.inl (by rw [List.foldl_cons, h, hm])
      · exact Or.inr (by rw [List.foldl_cons, h, hm]; exact List.mem_cons_self t ts)
    · exact Or.inr (List.mem_cons_of_mem t h)

theorem listMinQ_le_of_mem (ts : List ℚ) (hne : ts ≠ []) :
    ∀ x ∈ ts, listMinQ ts ≤ x := by
  obtain ⟨t, ts', rfl⟩ := List.exists_cons_of_ne_nil hne
  intro x hx
  rcases List.mem_cons.mp hx with rfl | hx
  · exact foldl_min_le_init ts' x
  · exact foldl_min_le_mem ts' t x hx

theorem listMinQ_mem (ts : List ℚ) (hne : ts ≠ []) : listMinQ ts ∈ ts := by
  obtain ⟨t, ts', rfl⟩ := List.exists_cons_of_ne_nil hne
  rcases foldl_min_eq_or_mem ts' t with h | h
  · rw [listMinQ, h]
    exact List.mem_cons_self t ts'
  · exact List.mem_cons_of_mem t h

theorem listMaxQ_le_of_mem (ts : List ℚ) (hne : ts ≠ []) :
    ∀ x ∈ ts, x ≤ listMaxQ ts := by
  obtain ⟨t, ts', rfl⟩ := List.exists_cons_of_ne_nil hne
  intro x hx
  rcases List.mem_cons.mp hx with rfl | hx
  · exact foldl_max_init_le ts' x
  · exact foldl_max_mem_le ts' t x hx

theorem listMaxQ_mem (ts : List ℚ) (hne : ts ≠ []) : listMaxQ ts ∈ ts := by
  obtain ⟨t, ts', rfl⟩ := List.exists_cons_of_ne_nil hne
  rcases foldl_max_eq_or_mem ts' t with h | h
  · rw [listMaxQ, h]
    exact List.mem_cons_self t ts'
  · exact List.mem_cons_of_mem t h

theorem getD_mem_of_lt {α : Type} (l : List α) (i : Nat) (d : α)
    (h : i < l.length) : l.getD i d ∈ l := by
  induction l generalizing i with
  | nil => simp at h
  | cons a as ih =>
    cases i with
    | zero => simp
    | succ n =>
      simp only [List.getD_cons_succ]
      exact List.mem_cons_of_mem a (ih n (by simpa using h))

theorem jsOr_mem {S : List ℚ} {a b : ℚ} (ha : a ∈ S) (hb : b ∈ S) :
    jsOr a b ∈ S := by
  unfold jsOr
  split
  · exact hb
  · exact ha

theorem foldl_popVal_sum (g : List ForecastItem) :
    ∀ a : ℚ, g.foldl (fun s it => s + popVal it) a = a + (g.map popVal).sum := by
  induction g with
  | nil => intro a; simp
  | cons y ys ih =>
    intro a
    simp only [List.foldl_cons, List.map_cons, List.sum_cons, ih (a + popVal y)]
    ring

theorem processForecastData_char (l : List ForecastItem) :
    processForecastData l =
      ((groupByDay l).map Prod.fst).map
        (fun d => processGroup d (l.filter (fun x => itemDay x == d))) := by
  have h := (groupByDay_inv l).2.2
  unfold processForecastData
  rw [List.map_map]
  refine List.map_congr_left fun q hq => ?_
  simp only [Function.comp]
  rw [h q hq]

theorem mem_processForecastData (l : List ForecastItem) (r : ForecastData)
    (hr : r ∈ processForecastData l) :
    ∃ d : Nat, r = processGroup d (l.filter (fun x => itemDay x == d)) ∧
      l.filter (fun x => itemDay x == d) ≠ [] := by
  rw [processForecastData_char] at hr
  obtain ⟨d, hd, heq⟩ := List.mem_map.mp hr
  refine ⟨d, heq.symm, ?_⟩
  obtain ⟨x, hxl, hxd⟩ := ((groupByDay_inv l).2.1 d).mp hd
  exact List.ne_nil_of_mem (List.mem_filter.mpr ⟨hxl, by simp [hxd]⟩)

/-- Claim C1: `processForecastData` groups the samples by the UTC calendar
day of their `dt`; the produced `dt`s are pairwise distinct, a day is
represented exactly when some input sample falls on it (so each sample
belongs to exactly one output day and there is one record per distinct
day), and each record's `temp.min` / `temp.max` are the minimum / maximum
of `main.temp` over exactly that day's samples (lower/upper bound plus
attainment). -/
theorem processForecastData_groups_by_utc_day (l : List ForecastItem) :
    ((processForecastData l).map (fun r => r.dt)).Nodup ∧
    (∀ d : Nat, ((d : Int) * 86400 ∈ (processForecastData l).map (fun r => r.dt)) ↔
      ∃ x ∈ l, itemDay x = d) ∧
    (∀ r ∈ processForecastData l, ∃ d : Nat,
      r.dt = (d : Int) * 86400 ∧
      l.filter (fun x => itemDay x == d) ≠ [] ∧
      (∀ x ∈ l.filter (fun x => itemDay x == d),
        r.temp.min ≤ x.main.temp ∧ x.main.temp ≤ r.temp.max) ∧
      (∃ x ∈ l.filter (fun x => itemDay x == d), r.temp.min = x.main.temp) ∧
      (∃ x ∈ l.filter (fun x => itemDay x == d), r.temp.max = x.main.temp)) := by
  have hinv := groupByDay_inv l
  have hinj : Function.Injective (fun d : Nat => (d : Int) * 86400) := by
    intro a b h
    have h2 : (a : Int) = (b : Int) := mul_right_cancel₀ (by norm_num) h
    exact_mod_cast h2
  have hdts : (processForecastData l).map (fun r => r.dt) =
      ((groupByDay l).map Prod.fst).map (fun d : Nat => (d : Int) * 86400) := by
    rw [processForecastData_char, List.map_map]
    rfl
  refine ⟨?_, ?_, ?_⟩
  · rw [hdts]
    exact hinv.1.map hinj
  · intro d
    rw [hdts]
    constructor
    · intro hd
      obtain ⟨d', hd', he⟩ := List.mem_map.mp hd
      have hdd : d' = d := hinj he
      rw [← hdd]
      exact (hinv.2.1 d').mp hd'
    · intro hx
      exact List.mem_map.mpr ⟨d, (hinv.2.1 d).mpr hx, rfl⟩
  · intro r hr
    obtain ⟨d, rfl, hne⟩ := mem_processForecastData l r hr
    have htne : (l.filter (fun x => itemDay x == d)).map (fun it => it.main.temp) ≠ [] := by
      intro hnil
      exact hne (List.map_eq_nil_iff.mp hnil)
    refine ⟨d, rfl, hne, ?_, ?_, ?_⟩
    · intro x hx
      exact ⟨listMinQ_le_of_mem _ htne _ (List.mem_map.mpr ⟨x, hx, rfl⟩),
        listMaxQ_le_of_mem _ htne _ (List.mem_map.mpr ⟨x, hx, rfl⟩)⟩
    · obtain ⟨x, hx, hxe⟩ := List.mem_map.mp (listMinQ_mem _ htne)
      exact ⟨x, hx, hxe.symm⟩
    · obtain ⟨x, hx, hxe⟩ := List.mem_map.mp (listMaxQ_mem _ htne)
      exact ⟨x, hx, hxe.symm⟩

theorem processForecastData_groups_by_utc_day_witness :
    ∃ d : Nat,
      ((processForecastData [sampleA]).getD 0 dummyForecastData).dt = (d : Int) * 86400 ∧
      [sampleA].filter (fun x => itemDay x == d) ≠ [] ∧
      (∀ x ∈ [sampleA].filter (fun x => itemDay x == d),
        ((processForecastData [sampleA]).getD 0 dummyForecastData).temp.min ≤ x.main.temp ∧
          x.main.temp ≤ ((processForecastData [sampleA]).getD 0 dummyForecastData).temp.max) ∧
      (∃ x ∈ [sampleA].filter (fun x => itemDay x == d),
        ((processForecastData [sampleA]).getD 0 dummyForecastData).temp.min = x.main.temp) ∧
      (∃ x ∈ [sampleA].filter (fun x => itemDay x == d),
        ((processForecastData [sampleA]).getD 0 dummyForecastData).temp.max = x.main.temp) :=
  (processForecastData_groups_by_utc_day [sampleA]).2.2
    ((processForecastData [sampleA]).getD 0 dummyForecastData)
    (by rw [show processForecastData [sampleA] = [processGroup 0 [sampleA]] from rfl]
        exact List.mem_singleton_self _)

/-- Claim C2: for every output day, the `pop` field is the arithmetic mean
over that day's samples of `item.pop || 0` (missing `pop` counts as 0). -/
theorem processForecastData_pop_mean (l : List ForecastItem) :
    ∀ r ∈ processForecastData l, ∃ d : Nat,
      r.dt = (d : Int) * 86400 ∧
      l.filter (fun x => itemDay x == d) ≠ [] ∧
      r.pop = ((l.filter (fun x => itemDay x == d)).map popVal).sum /
        (((l.filter (fun x => itemDay x == d)).length : ℚ)) := by
  intro r hr
  obtain ⟨d, rfl, hne⟩ := mem_processForecastData l r hr
  refine ⟨d, rfl, hne, ?_⟩
  show (l.filter (fun x => itemDay x == d)).foldl (fun s it => s + popVal it) 0 /
      (((l.filter (fun x => itemDay x == d)).length : ℚ)) = _
  rw [foldl_popVal_sum _ 0, zero_add]

theorem processForecastData_pop_mean_witness :
    ∃ d : Nat,
      ((processForecastData [sampleA]).getD 0 dummyForecastData).dt = (d : Int) * 86400 ∧
      [sampleA].filter (fun x => itemDay x == d) ≠ [] ∧
      ((processForecastData [sampleA]).getD 0 dummyForecastData).pop =
        (([sampleA].filter (fun x => itemDay x == d)).map popVal).sum /
          ((([sampleA].filter (fun x => itemDay x == d)).length : ℚ)) :=
  processForecastData_pop_mean [sampleA]
    ((processForecastData [sampleA]).getD 0 dummyForecastData)
    (by rw [show processForecastData [sampleA] = [processGroup 0 [sampleA]] from rfl]
        exact List.mem_singleton_self _)

/-- Claim C8: every snapshot temperature (`morn`, `day`, `eve`, `night`) of
an output day is the temperature of some sample of that day's group
(fallbacks included) and hence lies between `temp.min` and `temp.max`. -/
theorem processForecastData_snapshots_in_range (l : List ForecastItem) :
    ∀ r ∈ processForecastData l, ∃ d : Nat,
      r.dt = (d : Int) * 86400 ∧
      l.filter (fun x => itemDay x == d) ≠ [] ∧
      r.temp.morn ∈ (l.filter (fun x => itemDay x == d)).map (fun x => x.main.temp) ∧
      r.temp.day ∈ (l.filter (fun x => itemDay x == d)).map (fun x => x.main.temp) ∧
      r.temp.eve ∈ (l.filter (fun x => itemDay x == d)).map (fun x => x.main.temp) ∧
      r.temp.night ∈ (l.filter (fun x => itemDay x == d)).map (fun x => x.main.temp) ∧
      (r.temp.min ≤ r.temp.morn ∧ r.temp.morn ≤ r.temp.max) ∧
      (r.temp.min ≤ r.temp.day ∧ r.temp.day ≤ r.temp.max) ∧
      (r.temp.min ≤ r.temp.eve ∧ r.temp.eve ≤ r.temp.max) ∧
      (r.temp.min ≤ r.temp.night ∧ r.temp.night ≤ r.temp.max) := by
  intro r hr
  obtain ⟨d, rfl, hne⟩ := mem_processForecastData l r hr
  have hpos : 0 < (l.filter (fun x => itemDay x == d)).length := List.length_pos.mpr hne
  have htne : (l.filter (fun x => itemDay x == d)).map (fun x => x.main.temp) ≠ [] := by
    intro hnil
    exact hne (List.map_eq_nil_iff.mp hnil)
  have hmid : (l.filter (fun x => itemDay x == d)).length / 2 <
      (l.filter (fun x => itemDay x == d)).length := Nat.div_lt_self hpos (by norm_num)
  have hlast : (l.filter (fun x => itemDay x == d)).length - 1 <
      (l.filter (fun x => itemDay x == d)).length := Nat.sub_lt hpos (by norm_num)
  have heveIdx : min ((l.filter (fun x => itemDay x == d)).length - 1)
      ((l.filter (fun x => itemDay x == d)).length / 2 + 2) <
      (l.filter (fun x => itemDay x == d)).length :=
    lt_of_le_of_lt (min_le_left _ _) hlast
  have hdayM : ((l.filter (fun x => itemDay x == d)).getD
      ((l.filter (fun x => itemDay x == d)).length / 2) dummyItem).main.temp ∈
      (l.filter (fun x => itemDay x == d)).map (fun x => x.main.temp) :=
    List.mem_map.mpr ⟨_, getD_mem_of_lt _ _ dummyItem hmid, rfl⟩
  have hmornM : ((l.filter (fun x => itemDay x == d)).getD 0 dummyItem).main.temp ∈
      (l.filter (fun x => itemDay x == d)).map (fun x => x.main.temp) :=
    List.mem_map.mpr ⟨_, getD_mem_of_lt _ _ dummyItem hpos, rfl⟩
  have heveM : ((l.filter (fun x => itemDay x == d)).getD
      (min ((l.filter (fun x => itemDay x == d)).length - 1)
        ((l.filter (fun x => itemDay x == d)).length / 2 + 2)) dummyItem).main.temp ∈
      (l.filter (fun x => itemDay x == d)).map (fun x => x.main.temp) :=
    List.mem_map.mpr ⟨_, getD_mem_of_lt _ _ dummyItem heveIdx, rfl⟩
  have hnightM : ((l.filter (fun x => itemDay x == d)).getD
      ((l.filter (fun x => itemDay x == d)).length - 1) dummyItem).main.temp ∈
      (l.filter (fun x => itemDay x == d)).map (fun x => x.main.temp) :=
    List.mem_map.mpr ⟨_, getD_mem_of_lt _ _ dummyItem hlast, rfl⟩
  have hmorn : (processGroup d (l.filter (fun x => itemDay x == d))).temp.morn ∈
      (l.filter (fun x => itemDay x == d)).map (fun x => x.main.temp) :=
    jsOr_mem hmornM hdayM
  have hday : (processGroup d (l.filter (fun x => itemDay x == d))).temp.day ∈
      (l.filter (fun x => itemDay x == d)).map (fun x => x.main.temp) := hdayM
  have heve : (processGroup d (l.filter (fun x => itemDay x == d))).temp.eve ∈
      (l.filter (fun x => itemDay x == d)).map (fun x => x.main.temp) :=
    jsOr_mem heveM hdayM
  have hnight : (processGroup d (l.filter (fun x => itemDay x == d))).temp.night ∈
      (l.filter (fun x => itemDay x == d)).map (fun x => x.main.temp) :=
    jsOr_mem hnightM hdayM
  exact ⟨d, rfl, hne, hmorn, hday, heve, hnight,
    ⟨listMinQ_le_of_mem _ htne _ hmorn, listMaxQ_le_of_mem _ htne _ hmorn⟩,
    ⟨listMinQ_le_of_mem _ htne _ hday, listMaxQ_le_of_mem _ htne _ hday⟩,
    ⟨listMinQ_le_of_mem _ htne _ heve, listMaxQ_le_of_mem _ htne _ heve⟩,
    ⟨listMinQ_le_of_mem _ htne _ hnight, listMaxQ_le_of_mem _ htne _ hnight⟩⟩

theorem processForecastData_snapshots_in_range_witness :
    ∃ d : Nat,
      ((processForecastData [sampleA]).getD 0 dummyForecastData).dt = (d : Int) * 86400 ∧
      [sampleA].filter (fun x => itemDay x == d) ≠ [] ∧
      ((processForecastData [sampleA]).getD 0 dummyForecastData).temp.morn ∈
        ([sampleA].filter (fun x => itemDay x == d)).map (fun x => x.main.temp) ∧
      ((processForecastData [sampleA]).getD 0 dummyForecastData).temp.day ∈
        ([sampleA].filter (fun x => itemDay x == d)).map (fun x => x.main.temp) ∧
      ((processForecastData [sampleA]).getD 0 dummyForecastData).temp.eve ∈
        ([sampleA].filter (fun x => itemDay x == d)).map (fun x => x.main.temp) ∧
      ((processForecastData [sampleA]).getD 0 dummyForecastData).temp.night ∈
        ([sampleA].filter (fun x => itemDay x == d)).map (fun x => x.main.temp) ∧
      (((processForecastData [sampleA]).getD 0 dummyForecastData).temp.min ≤
          ((processForecastData [sampleA]).getD 0 dummyForecastData).temp.morn ∧
        ((processForecastData [sampleA]).getD 0 dummyForecastData).temp.morn ≤
          ((processForecastData [sampleA]).getD 0 dummyForecastData).temp.max) ∧
      (((processForecastData [sampleA]).getD 0 dummyForecastData).temp.min ≤
          ((processForecastData [sampleA]).getD 0 dummyForecastData).temp.day ∧
        ((processForecastData [sampleA]).getD 0 dummyForecastData).temp.day ≤
          ((processForecastData [sampleA]).getD 0 dummyForecastData).temp.max) ∧
      (((processForecastData [sampleA]).getD 0 dummyForecastData).temp.min ≤
          ((processForecastData [sampleA]).getD 0 dummyForecastData).temp.eve ∧
        ((processForecastData [sampleA]).getD 0 dummyForecastData).temp.eve ≤
          ((processForecastData [sampleA]).getD 0 dummyForecastData).temp.max) ∧
      (((processForecastData [sampleA]).getD 0 dummyForecastData).temp.min ≤
          ((processForecastData [sampleA]).getD 0 dummyForecastData).temp.night ∧
        ((processForecastData [sampleA]).getD 0 dummyForecastData).temp.night ≤
          ((processForecastData [sampleA]).getD 0 dummyForecastData).temp.max) :=
  processForecastData_snapshots_in_range [sampleA]
    ((processForecastData [sampleA]).getD 0 dummyForecastData)
    (by rw [show processForecastData [sampleA] = [processGroup 0 [sampleA]] from rfl]
        exact List.mem_singleton_self _)

/-- Claim C3 counterexample: on two same-day samples with temperatures `0`
and `5`, the single output day's `temp.morn` is `5`, not the first sample's
temperature `0` — the JS `|| fallback` replaces a falsy (zero) snapshot
temperature by the middle sample's temperature. -/
theorem processForecastData_snapshot_falsy_cex :
    (processForecastData [cexItemA, cexItemB]).length = 1 ∧
    [cexItemA, cexItemB].filter (fun x => itemDay x == 0) = [cexItemA, cexItemB] ∧
    cexItemA.main.temp = 0 ∧
    ((processForecastData [cexItemA, cexItemB]).getD 0 dummyForecastData).temp.morn = 5 ∧
    ((processForecastData [cexItemA, cexItemB]).getD 0 dummyForecastData).temp.morn ≠
      cexItemA.main.temp :=
  ⟨by decide, by decide, by decide, by decide, by decide⟩

/-- Claim C3 as amended: snapshots are selected by index — `day` is the
middle sample's temperature, and `morn` / `eve` / `night` are the
temperatures at indices `0`, `min(n-1, n/2+2)`, `n-1` respectively, except
that a zero (JS-falsy) temperature at those indices falls back to the
middle sample's temperature. -/
theorem processForecastData_snapshot_selection (l : List ForecastItem) :
    ∀ r ∈ processForecastData l, ∃ d : Nat,
      r.dt = (d : Int) * 86400 ∧
      l.filter (fun x => itemDay x == d) ≠ [] ∧
      r.temp.day = ((l.filter (fun x => itemDay x == d)).getD
        ((l.filter (fun x => itemDay x == d)).length / 2) dummyItem).main.temp ∧
      r.temp.morn = (if ((l.filter (fun x => itemDay x == d)).getD 0 dummyItem).main.temp = 0
        then r.temp.day
        else ((l.filter (fun x => itemDay x == d)).getD 0 dummyItem).main.temp) ∧
      r.temp.eve = (if ((l.filter (fun x => itemDay x == d)).getD
          (min ((l.filter (fun x => itemDay x == d)).length - 1)
            ((l.filter (fun x => itemDay x == d)).length / 2 + 2)) dummyItem).main.temp = 0
        then r.temp.day
        else ((l.filter (fun x => itemDay x == d)).getD
          (min ((l.filter (fun x => itemDay x == d)).length - 1)
            ((l.filter (fun x => itemDay x == d)).length / 2 + 2)) dummyItem).main.temp) ∧
      r.temp.night = (if ((l.filter (fun x => itemDay x == d)).getD
          ((l.filter (fun x => itemDay x == d)).length - 1) dummyItem).main.temp = 0
        then r.temp.day
        else ((l.filter (fun x => itemDay x == d)).getD
          ((l.filter (fun x => itemDay x == d)).length - 1) dummyItem).main.temp) := by
  intro r hr
  obtain ⟨d, rfl, hne⟩ := mem_processForecastData l r hr
  exact ⟨d, rfl, hne, rfl, rfl, rfl, rfl⟩

theorem processForecastData_snapshot_selection_witness :
    ∃ d : Nat,
      ((processForecastData [cexItemA, cexItemB]).getD 0 dummyForecastData).dt =
        (d : Int) * 86400 ∧
      [cexItemA, cexItemB].filter (fun x => itemDay x == d) ≠ [] ∧
      ((processForecastData [cexItemA, cexItemB]).getD 0 dummyForecastData).temp.day =
        (([cexItemA, cexItemB].filter (fun x => itemDay x == d)).getD
          (([cexItemA, cexItemB].filter (fun x => itemDay x == d)).length / 2)
          dummyItem).main.temp ∧
      ((processForecastData [cexItemA, cexItemB]).getD 0 dummyForecastData).temp.morn =
        (if (([cexItemA, cexItemB].filter (fun x => itemDay x == d)).getD 0
            dummyItem).main.temp = 0
        then ((processForecastData [cexItemA, cexItemB]).getD 0 dummyForecastData).temp.day
        else (([cexItemA, cexItemB].filter (fun x => itemDay x == d)).getD 0
            dummyItem).main.temp) ∧
      ((processForecastData [cexItemA, cexItemB]).getD 0 dummyForecastData).temp.eve =
        (if (([cexItemA, cexItemB].filter (fun x => itemDay x == d)).getD
            (min (([cexItemA, cexItemB].filter (fun x => itemDay x == d)).length - 1)
              (([cexItemA, cexItemB].filter (fun x => itemDay x == d)).length / 2 + 2))
            dummyItem).main.temp = 0
        then ((processForecastData [cexItemA, cexItemB]).getD 0 dummyForecastData).temp.day
        else (([cexItemA, cexItemB].filter (fun x => itemDay x == d)).getD
            (min (([cexItemA, cexItemB].filter (fun x => itemDay x == d)).length - 1)
              (([cexItemA, cexItemB].filter (fun x => itemDay x == d)).length / 2 + 2))
            dummyItem).main.temp) ∧
      ((processForecastData [cexItemA, cexItemB]).getD 0 dummyForecastData).temp.night =
        (if (([cexItemA, cexItemB].filter (fun x => itemDay x == d)).getD
            (([cexItemA, cexItemB].filter (fun x => itemDay x == d)).length - 1)
            dummyItem).main.temp = 0
        then ((processForecastData [cexItemA, cexItemB]).getD 0 dummyForecastData).temp.day
        else (([cexItemA, cexItemB].filter (fun x => itemDay x == d)).getD
            (([cexItemA, cexItemB].filter (fun x => itemDay x == d)).length - 1)
            dummyItem).main.temp) :=
  processForecastData_snapshot_selection [cexItemA, cexItemB]
    ((processForecastData [cexItemA, cexItemB]).getD 0 dummyForecastData)
    (by rw [show processForecastData [cexItemA, cexItemB] =
          [processGroup 0 [cexItemA, cexItemB]] from rfl]
        exact List.mem_singleton_self _)

/-- Claim C4: `processForecastData` is pure and deterministic — its result
is independent of any ambient state (wall clock, random stream): two runs
in arbitrary environments on the same input coincide. -/
theorem processForecastData_deterministic (e1 e2 : Ambient) (l : List ForecastItem) :
    runProcessForecastData e1 l = runProcessForecastData e2 l := rfl

theorem getD_map_of_lt {α β : Type} (f : α → β) (l : List α) (i : Nat)
    (d : β) (d0 : α) (h : i < l.length) : (l.map f).getD i d = f (l.getD i d0) := by
  induction l generalizing i with
  | nil => simp at h
  | cons a as ih =>
    cases i with
    | zero => simp
    | succ n =>
      simp only [List.map_cons, List.getD_cons_succ]
      exact ih n (by simpa using h)

theorem fetchWeatherForCities_true_getD (cities : List City)
    (up : City → Except Unit WxApiResponse) (rnd : Nat → ℚ) (i : Nat)
    (hi : i < cities.length) :
    (fetchWeatherForCities true cities up rnd).1.getD i dummyCity =
      (fetchOneCity up (cities.getD i dummyCity)).1 := by
  show ((cities.map (fetchOneCity up)).map Prod.fst).getD i dummyCity = _
  rw [getD_map_of_lt Prod.fst (cities.map (fetchOneCity up)) i dummyCity
      (dummyCity, []) (by simpa using hi)]
  rw [getD_map_of_lt (fetchOneCity up) cities i (dummyCity, []) dummyCity hi]

/-- Claim C6: in `fetchWeatherForCities` each city's fetch is handled
independently: output length matches, a city whose fetch fails is returned
unchanged (no weather added), and the output at any position depends only
on that position's own upstream outcome — so one city's failure leaves
every other city's result as if the failure had not occurred. -/
theorem fetchWeatherForCities_per_city_isolation (cities : List City)
    (up1 up2 : City → Except Unit WxApiResponse) (rnd1 rnd2 : Nat → ℚ)
    (i : Nat) (hi : i < cities.length) :
    ((fetchWeatherForCities true cities up1 rnd1).1.length = cities.length) ∧
    (up1 (cities.getD i dummyCity) = Except.error () →
      (fetchWeatherForCities true cities up1 rnd1).1.getD i dummyCity =
        cities.getD i dummyCity) ∧
    (up1 (cities.getD i dummyCity) = up2 (cities.getD i dummyCity) →
      (fetchWeatherForCities true cities up1 rnd1).1.getD i dummyCity =
        (fetchWeatherForCities true cities up2 rnd2).1.getD i dummyCity) := by
  refine ⟨by simp [fetchWeatherForCities], ?_, ?_⟩
  · intro he
    rw [fetchWeatherForCities_true_getD cities up1 rnd1 i hi]
    unfold fetchOneCity
    rw [he]
  · intro he
    rw [fetchWeatherForCities_true_getD cities up1 rnd1 i hi,
      fetchWeatherForCities_true_getD cities up2 rnd2 i hi]
    unfold fetchOneCity
    rw [he]

theorem fetchWeatherForCities_per_city_isolation_witness :
    (fetchWeatherForCities true [dummyCity] (fun _ => Except.error ())
      (fun _ => 0)).1.getD 0 dummyCity = dummyCity :=
  (fetchWeatherForCities_per_city_isolation [dummyCity] (fun _ => Except.error ())
    (fun _ => Except.error ()) (fun _ => 0) (fun _ => 0) 0 (by decide)).2.1 rfl

theorem forall₂_map_self {R : City → City → Prop} (g : City → City)
    (hg : ∀ c, R c (g c)) (cs : List City) : List.Forall₂ R cs (cs.map g) := by
  induction cs with
  | nil => exact List.Forall₂.nil
  | cons c cs ih => exact List.Forall₂.cons (hg c) ih

theorem forall₂_mockWeatherCities (rnd : Nat → ℚ) (cs : List City) :
    ∀ n : Nat, List.Forall₂ SameCityIdentity cs (mockWeatherCities rnd n cs) := by
  induction cs with
  | nil => intro n; exact List.Forall₂.nil
  | cons c cs ih =>
    intro n
    exact List.Forall₂.cons ⟨rfl, rfl, rfl, rfl, rfl, rfl, rfl⟩ (ih (n + 1))

/-- Claim C9: `fetchWeatherForCities` returns a list of the same length and
order as its input, and every output city keeps the input city's `id`,
`name`, `country`, `latitude`, `longitude`, `population` and `timezone`;
only `weather` may change (in every branch: mock, success, failure). -/
theorem fetchWeatherForCities_frame (hasKey : Bool) (cities : List City)
    (up : City → Except Unit WxApiResponse) (rnd : Nat → ℚ) :
    List.Forall₂ SameCityIdentity cities (fetchWeatherForCities hasKey cities up rnd).1 := by
  cases hasKey with
  | false => exact forall₂_mockWeatherCities rnd cities 0
  | true =>
    show List.Forall₂ SameCityIdentity cities ((cities.map (fetchOneCity up)).map Prod.fst)
    rw [List.map_map]
    refine forall₂_map_self _ (fun c => ?_) cities
    have hcase : ((fetchOneCity up c).1 = c) ∨
        ∃ w w0, (fetchOneCity up c).1 = updateCityWeather c (cityWeatherOf w w0) := by
      cases hup : up c with
      | error e => exact Or.inl (by simp [fetchOneCity, hup])
      | ok w =>
        cases hw : w.weather with
        | nil => exact Or.inl (by simp [fetchOneCity, hup, hw])
        | cons w0 ws => exact Or.inr ⟨w, w0, by simp [fetchOneCity, hup, hw]⟩
    show SameCityIdentity c (fetchOneCity up c).1
    rcases hcase with h | ⟨w, w0, h⟩
    · rw [h]
      exact ⟨rfl, rfl, rfl, rfl, rfl, rfl, rfl⟩
    · rw [h]
      exact ⟨rfl, rfl, rfl, rfl, rfl, rfl, rfl⟩

/-- Claim C10: `getCityById` never throws; it returns `none` both on a
successful query with zero records and on a failed fetch for an id not
starting with `mock-`, and returns a city exactly on a successful nonempty
lookup or on a failed fetch with a `mock-` id. -/
theorem getCityById_result_cases (id : String) (rnd : Nat → ℚ)
    (r : CityRecord) (rs : List CityRecord) :
    ((getCityById id (Except.ok { records := [] }) rnd).1 = none) ∧
    ((getCityById id (Except.ok { records := r :: rs }) rnd).1 =
      some (cityOfRecord r)) ∧
    ((getCityById id (Except.error ()) rnd).1 =
      (if jsStartsWith id ("mock-") then some (mockCityForId id rnd) else none)) := by
  refine ⟨rfl, rfl, ?_⟩
  by_cases h : jsStartsWith id ("mock-") = true <;> simp [getCityById, h]

/-- Claim C5 counterexample: on a failed fetch for the id `"abc"` (which
does not start with `mock-`), `getCityById` returns `none` — no randomly
generated placeholder city is substituted for the failed result. -/
theorem getCityById_no_placeholder_cex :
    (getCityById ("abc") (Except.error ()) (fun _ => 0)).1 = none ∧
    (getCityById ("abc") (Except.error ()) (fun _ => 0)).2 =
      ["Error fetching city by ID:"] :=
  ⟨by decide, by decide⟩

/-- Claim C5 as amended: on an upstream fetch failure every fetching
operation logs a diagnostic and swallows the error, but the substituted
value differs per operation — `fetchCities` returns randomly generated mock
cities, `fetchWeather` returns the mock weather data, `getCityById`
substitutes a random placeholder only for ids starting with `mock-` and
returns `none` otherwise, and `fetchWeatherForCities` returns each city
unchanged. -/
theorem fetch_failure_fallbacks (p : FetchCitiesParams) (rnd : Nat → ℚ)
    (units : String) (now : Int) (id : String) (cities : List City) :
    (fetchCities p (Except.error ()) rnd =
      ({ cities := mockCitiesList p.limit.toNat ((p.page - 1) * p.limit) rnd
       , hasMore := decide (p.page < 5)
       , total := 100 }, ["Error fetching cities:"])) ∧
    (fetchWeather true units (Except.error ()) now rnd =
      (getMockWeatherData units now rnd, ["Error fetching weather data:"])) ∧
    ((getCityById id (Except.error ()) rnd).1.isSome = jsStartsWith id ("mock-")) ∧
    ((getCityById id (Except.error ()) rnd).2 = ["Error fetching city by ID:"]) ∧
    ((fetchWeatherForCities true cities (fun _ => Except.error ()) rnd).1 = cities) := by
  refine ⟨rfl, rfl, ?_, ?_, ?_⟩
  · by_cases h : jsStartsWith id ("mock-") = true <;> simp [getCityById, h]
  · by_cases h : jsStartsWith id ("mock-") = true <;> simp [getCityById, h]
  · show ((cities.map (fetchOneCity fun _ => Except.error ())).map Prod.fst) = cities
    rw [List.map_map]
    exact (List.map_congr_left fun c _ => rfl).trans (List.map_id cities)

/-- Claim C7: for a successful `fetchCities` call, the `start` parameter
sent upstream is `(page - 1) * limit`, the returned `total` is the upstream
`nhits`, the `sort` parameter is `sortField` prefixed with `-` exactly when
`sortDirection` is `desc`, and `hasMore` holds exactly when
`(page - 1) * limit` plus the number of returned cities is strictly below
`nhits`. -/
theorem fetchCities_success_shape (p : FetchCitiesParams)
    (resp : CitiesApiResponse) (rnd : Nat → ℚ) :
    (getParam (buildCityQueryParams p) ("start") =
      some (toString ((p.page - 1) * p.limit))) ∧
    ((fetchCities p (Except.ok resp) rnd).1.total = resp.nhits) ∧
    (getParam (buildCityQueryParams p) ("sort") =
      some ((if p.sortDirection = "desc" then "-" else "") ++ p.sortField)) ∧
    ((fetchCities p (Except.ok resp) rnd).1.hasMore = true ↔
      (p.page - 1) * p.limit +
        (((fetchCities p (Except.ok resp) rnd).1.cities.length : Int)) < resp.nhits) := by
  refine ⟨rfl, rfl, ?_, ?_⟩
  · by_cases hs : p.search = ""
    · simp only [buildCityQueryParams, if_pos hs]
      rfl
    · simp only [buildCityQueryParams, if_neg hs]
      rfl
  · exact ⟨fun h => of_decide_eq_true h, fun h => decide_eq_true h⟩
